import Mathlib

/-!
Verification of the rhts testinfo.desc parser (src/python-modules/rhts/testinfo.py).

The Python source is shallowly embedded: the mutable `TestInfo` instance becomes
a record threaded through pure handler functions, and each call to
`handle_error` / `handle_warning` becomes a `Diag` value appended to a list in
execution order.  The two diagnostic policies of the source (`StrictParser`
raising on the first diagnostic, or silently discarding diagnostics) are
recovered from that list: a raising run is identical to a collecting run up to
the first diagnostic, so its outcome is determined by the head of the collected
list.

Python string operations are embedded as structural functions over `List Char`
so that every definition evaluates inside the kernel:
  value.split(sep)        -> pySplit
  value.strip()           -> pyStrip     (ASCII whitespace)
  value.startswith(p)     -> strStartsWith
  value[n:]               -> strDrop     (character-based slicing)
  sep.join(l)             -> joinWith
Anchored regexes of the source are embedded by the equivalent deterministic
scan, documented at each definition.
-/

namespace Rhts

/-- Severity of a reported diagnostic: handle_error vs handle_warning. -/
inductive Severity where
  | error
  | warning
deriving DecidableEq, Repr

/-- One diagnostic reported through the handler interface. -/
structure Diag where
  sev : Severity
  msg : String
deriving DecidableEq, Repr

/-- Character-level whitespace class, matching the Python regex \s and the
characters stripped by str.strip() on ASCII input. -/
def pyWhitespaceChar (c : Char) : Bool :=
  c = ' ' || c = '\t' || c = '\n' || c = '\r' || c.toNat = 11 || c.toNat = 12

/-- value.split(sep) for a single-character separator: splits at every
occurrence, keeping empty pieces, and yields [value] when sep is absent. -/
def pySplitAux (sep : Char) : List Char → List Char → List String
  | [], acc => [String.mk acc.reverse]
  | c :: rest, acc =>
    if c = sep then String.mk acc.reverse :: pySplitAux sep rest []
    else pySplitAux sep rest (c :: acc)

/-- value.split(sep) (Python semantics for a one-character separator). -/
def pySplit (sep : Char) (s : String) : List String :=
  pySplitAux sep s.toList []

/-- value.strip(): drop whitespace from both ends. -/
def pyStrip (s : String) : String :=
  String.mk (((s.toList.dropWhile pyWhitespaceChar).reverse.dropWhile pyWhitespaceChar).reverse)

/-- value.startswith(p); also embeds the anchored regexes re.match("^/...")
and re.match(r"^\/mnt\/tests\/", ...) of the source. -/
def strStartsWith (s p : String) : Bool :=
  p.toList.isPrefixOf s.toList

/-- value[n:]: character-based slicing (Python strings index by character). -/
def strDrop (s : String) (n : Nat) : String :=
  String.mk (s.toList.drop n)

/-- sep.join(l). -/
def joinWith (sep : String) : List String → String
  | [] => ""
  | [x] => x
  | x :: y :: rest => x ++ sep ++ joinWith sep (y :: rest)

/-- int() on a string of decimal digits. -/
def digitsToNat (cs : List Char) : Nat :=
  cs.foldl (fun a c => a * 10 + (c.toNat - 48)) 0

/-- The parsed representation of one testinfo.desc file: class TestInfo.
Unset scalar fields are `none`, mirroring the attributes initialized to None;
list/dict fields start empty.  The derived name attributes set by handle_name
are included as optional fields (they do not exist before handle_name runs,
and are never read before it sets them). -/
structure TestInfo where
  test_name : Option String := none
  test_description : Option String := none
  test_archs : List String := []
  owner : Option String := none
  testversion : Option String := none
  releases : List String := []
  priority : Option String := none
  destructive : Option Bool := none
  license : Option String := none
  confidential : Option Bool := none
  avg_test_time : Option Nat := none
  test_path : Option String := none
  requires : List String := []
  rhtsrequires : List String := []
  runfor : List String := []
  bugs : List Nat := []
  types : List String := []
  needs : List String := []
  need_properties : List (String × String × String) := []
  siteconfig : List (String × String) := []
  kickstart : Option String := none
  options : List String := []
  environment : List (String × String) := []
  provides : List String := []
  test_name_root_ns : Option String := none
  test_name_under_root_ns : Option String := none
  expected_path_under_mnt_tests_from_name : Option String := none
  test_name_frags : List String := []
deriving DecidableEq, Repr

/-- TestInfo() freshly constructed. -/
def emptyTestInfo : TestInfo := {}

/-- Python truthiness of an optional-string slot: None and "" are falsy. -/
def optStrTruthy : Option String → Bool
  | none => false
  | some s => s ≠ ""

/-- Python truthiness of the avg_test_time slot: None and 0 are falsy. -/
def optNatTruthy : Option Nat → Bool
  | none => false
  | some n => n ≠ 0

/-- Python truthiness of a tri-state boolean slot: None and False are falsy. -/
def optBoolTruthy : Option Bool → Bool
  | none => false
  | some b => b

/-- The regex character class \w (word character) of the validators, on the
ASCII range on which all inputs of this development live. -/
def wordChar (c : Char) : Bool :=
  c.isAlphanum || c = '_'

/-- The ATOM_CHARS character class of NameAddrValidator.  Inside the Python
character class the escaped plus followed by dash and slash forms a range, so
the class also contains every character with code 43 to 47 (plus, comma,
dash, dot, slash).  Codes 39, 96 and 123 to 125 are the apostrophe, the
backtick and the three punctuation characters following z in ASCII. -/
def atomChar (c : Char) : Bool :=
  wordChar c || c = '!' || c = '#' || c = '$' || c = '%' || c = '&' ||
  c = Char.ofNat 39 || c = '*' || (43 ≤ c.toNat && c.toNat ≤ 47) ||
  c = '=' || c = '?' || c = '^' || c = Char.ofNat 96 ||
  (123 ≤ c.toNat && c.toNat ≤ 125) || c = '~'

/-- Character admitted inside the PHRASE part of NAME_ADDR. -/
def phraseChar (c : Char) : Bool :=
  atomChar c || c = ' '

/-- Character admitted inside the local and domain parts of ADDR_SPEC. -/
def addrChar (c : Char) : Bool :=
  atomChar c || c = '.'

/-- NameAddrValidator.is_valid: re.match of
PHRASE <ADDR_SPEC> followed by spaces, where PHRASE = spaces, then one atom
character, then atom characters and spaces, and ADDR_SPEC = addr chars, @,
addr chars.  Because <, @ and > lie outside every character class of the
pattern, the backtracking regex is equivalent to this deterministic scan, and
re.match only needs a matching prefix (the trailing space-run matches empty). -/
def nameAddrValid (value : String) : Bool :=
  let cs := value.toList
  let pre := cs.takeWhile phraseChar
  let rest := cs.drop pre.length
  if pre.any atomChar then
    match rest with
    | '<' :: r1 =>
      let loc := r1.takeWhile addrChar
      let r2 := r1.drop loc.length
      if loc ≠ [] then
        match r2 with
        | '@' :: r3 =>
          let dom := r3.takeWhile addrChar
          let r4 := r3.drop dom.length
          dom ≠ [] &&
            (match r4 with
             | '>' :: _ => true
             | _ => false)
        | _ => false
      else false
    | _ => false
  else false

/-- TestVersion validator: full match of [A-Za-z0-9.]* . -/
def testversionValid (value : String) : Bool :=
  value.toList.all (fun c => c.isAlphanum || c = '.')

/-- Environment key validator: full match of [A-Za-z_][A-Za-z0-9_]* . -/
def envKeyValid (k : String) : Bool :=
  match k.toList with
  | [] => false
  | c :: rest => (c.isAlpha || c = '_') && rest.all (fun d => d.isAlphanum || d = '_')

/-- BoolValidator.convert.  The source uses re.match("y|yes|1", value) and
re.match("n|no|0", value); re.match anchors only at the start, so each test
is a prefix test on the literal alternatives. -/
def boolConvert (value : String) : Option Bool :=
  if strStartsWith value "y" || strStartsWith value "yes" || strStartsWith value "1" then
    some true
  else if strStartsWith value "n" || strStartsWith value "no" || strStartsWith value "0" then
    some false
  else
    none

/-- BoolValidator.is_valid. -/
def boolIsValid (value : String) : Bool :=
  (boolConvert value).isSome

/-- ListValidator.message. -/
def listValidatorMessage (validValues : List String) : String :=
  validValues.foldl (fun acc v => acc ++ " \"" ++ v ++ "\"") "valid values are"

/-- DashListValidator.is_valid: strip one optional leading dash, then check
membership. -/
def dashListValid (validValues : List String) (value : String) : Bool :=
  let value := if strStartsWith value "-" then strDrop value 1 else value
  validValues.contains value

/-- A validator as passed to the uniqueness handler: its predicate and its
rule description. -/
structure FieldValidator where
  is_valid : String → Bool
  message : String

/-- Parser.valid_architectures. -/
def valid_architectures : List String :=
  ["ia64", "x86_64", "ppc", "ppc64", "ppc64le", "s390", "s390x", "i386",
   "aarch64", "arm", "armhfp"]

/-- Parser.valid_priorities. -/
def valid_priorities : List String :=
  ["Low", "Medium", "Normal", "High", "Manual"]

/-- Parser.valid_options. -/
def valid_options : List String :=
  ["Compatible", "CompatService", "StrongerAVC"]

/-- The NameAddrValidator instance passed by handle_owner. -/
def nameAddrValidator : FieldValidator :=
  ⟨nameAddrValid,
   "should be a valid RFC2822 name_addr, such as John Doe <jdoe@somedomain.org>"⟩

/-- The RegexValidator instance passed by handle_testversion. -/
def testversionValidator : FieldValidator :=
  ⟨testversionValid, "can only contain numbers, letters and the dot symbol"⟩

/-- The ListValidator instance passed by handle_priority. -/
def priorityValidator : FieldValidator :=
  ⟨fun v => valid_priorities.contains v, listValidatorMessage valid_priorities⟩

/-- Parser.__unique_field on a string-valued slot: report a duplicate when the
slot is truthy, store the value unconditionally, then validate the stored
value (validation failure is reported after the store and does not undo it).
Returns the new slot content and the diagnostics in execution order. -/
def unique_field_str (fileFieldName : String) (slot : Option String) (value : String)
    (validator : Option FieldValidator) : Option String × List Diag :=
  let d1 := if optStrTruthy slot then
      [Diag.mk .error (fileFieldName ++ " field already defined")]
    else []
  let d2 := match validator with
    | some v =>
      if v.is_valid value then []
      else [Diag.mk .error ("\"" ++ value ++ "\" is not a valid " ++ fileFieldName ++
            " field (" ++ v.message ++ ")")]
    | none => []
  (some value, d1 ++ d2)

/-- Parser.__bool_field: validate the raw value against the boolean lexicon
(reporting on failure), then convert it — None when invalid — and delegate to
the uniqueness handler, which stores the conversion result unconditionally. -/
def bool_field (fileFieldName : String) (slot : Option Bool) (raw_value : String) :
    Option Bool × List Diag :=
  let d1 := if boolIsValid raw_value then []
    else [Diag.mk .error ("\"" ++ raw_value ++ "\" is not a valid " ++ fileFieldName ++
          " field (boolean value expected)")]
  let value := boolConvert raw_value
  let d2 := if optBoolTruthy slot then
      [Diag.mk .error (fileFieldName ++ " field already defined")]
    else []
  (value, d1 ++ d2)

/-- Parser.error_if_not_in_array message text. -/
def notInArrayMsg (fieldName value : String) (validValues : List String) : String :=
  validValues.foldl (fun acc v => acc ++ " \"" ++ v ++ "\"")
    ("\"" ++ value ++ "\" is not a valid value for " ++ fieldName ++ "; valid values are")

/-- Parser.handle_name: unique store, then derive the namespace attributes
when the value begins with a forward slash (error and early return when not). -/
def handle_name (key value : String) (info : TestInfo) : TestInfo × List Diag :=
  let r := unique_field_str key info.test_name value none
  let info := { info with test_name := r.1 }
  if ¬ strStartsWith value "/" then
    (info, r.2 ++ [Diag.mk .error "Name field does not begin with a forward-slash"])
  else
    let name_frags := pySplit '/' value
    let root_ns := name_frags.getD 1 ""
    ({ info with
        test_name_root_ns := some root_ns,
        test_name_under_root_ns := some (joinWith "/" (name_frags.drop 2)),
        expected_path_under_mnt_tests_from_name := some (joinWith "/" (name_frags.drop 2)),
        test_name_frags := name_frags }, r.2)

/-- Parser.handle_desc. -/
def handle_desc (key value : String) (info : TestInfo) : TestInfo × List Diag :=
  let r := unique_field_str key info.test_description value none
  ({ info with test_description := r.1 }, r.2)

/-- Parser.handle_owner. -/
def handle_owner (key value : String) (info : TestInfo) : TestInfo × List Diag :=
  let r := unique_field_str key info.owner value (some nameAddrValidator)
  ({ info with owner := r.1 }, r.2)

/-- Parser.handle_testversion. -/
def handle_testversion (key value : String) (info : TestInfo) : TestInfo × List Diag :=
  let r := unique_field_str key info.testversion value (some testversionValidator)
  ({ info with testversion := r.1 }, r.2)

/-- Parser.handle_license. -/
def handle_license (key value : String) (info : TestInfo) : TestInfo × List Diag :=
  let r := unique_field_str key info.license value none
  ({ info with license := r.1 }, r.2)

/-- Parser.handle_priority. -/
def handle_priority (key value : String) (info : TestInfo) : TestInfo × List Diag :=
  let r := unique_field_str key info.priority value (some priorityValidator)
  ({ info with priority := r.1 }, r.2)

/-- Parser.handle_deprecated (the Notify field). -/
def handle_deprecated (key _value : String) (info : TestInfo) : TestInfo × List Diag :=
  (info, [Diag.mk .warning (key ++ " field is deprecated")])

/-- Parser.handle_deprecated_for_needproperty (Need, Want, WantProperty). -/
def handle_deprecated_for_needproperty (key _value : String) (info : TestInfo) :
    TestInfo × List Diag :=
  (info, [Diag.mk .error (key ++ " field is deprecated.  Use NeedProperty instead")])

/-- The warning of the Releases loop: emitted on each iteration on which both
counters are positive. -/
def releasesMixedWarn : Diag :=
  Diag.mk .warning
    "Releases field lists both negated and non-negated release names (should be all negated, or all non-negated)"

/-- The per-iteration body of the Releases loop: count negated (leading dash)
and non-negated entries and warn whenever both counts are positive. -/
def releasesWarnLoop : List String → Nat → Nat → List Diag
  | [], _, _ => []
  | r :: rest, numNeg, numPos =>
    let isNeg := strStartsWith r "-"
    let numNeg := if isNeg then numNeg + 1 else numNeg
    let numPos := if isNeg then numPos else numPos + 1
    (if numNeg > 0 && numPos > 0 then [releasesMixedWarn] else []) ++
      releasesWarnLoop rest numNeg numPos

/-- Parser.handle_releases: duplicate check through the uniqueness handler
(whose transient raw-string store is immediately overwritten), then split and
store the token list, warning on mixed negation. -/
def handle_releases (key value : String) (info : TestInfo) : TestInfo × List Diag :=
  let d1 := if info.releases ≠ [] then
      [Diag.mk .error (key ++ " field already defined")]
    else []
  let releases := pySplit ' ' value
  ({ info with releases := releases }, d1 ++ releasesWarnLoop releases 0 0)

/-- arch.lstrip(dash): drop every leading dash. -/
def lstripDash (s : String) : String :=
  String.mk (s.toList.dropWhile (fun c => c = '-'))

/-- The warning of the Architectures handler on mixed negation. -/
def archsMixedWarn : Diag :=
  Diag.mk .warning
    "Architectures field lists both negated and non-negated architectures (should be all negated, or all non-negated)"

/-- Parser.handle_archs: duplicate check through the uniqueness handler, then
validate each token against the closed vocabulary (after stripping leading
dashes), store all tokens, and warn once on mixed negation. -/
def handle_archs (key value : String) (info : TestInfo) : TestInfo × List Diag :=
  let d1 := if info.test_archs ≠ [] then
      [Diag.mk .error (key ++ " field already defined")]
    else []
  let archs := pySplit ' ' value
  let d2 := archs.foldl
    (fun acc arch =>
      acc ++ (if valid_architectures.contains (lstripDash arch) then []
        else [Diag.mk .error (notInArrayMsg "Architecture" (lstripDash arch) valid_architectures)]))
    []
  let d3 := if archs.any (fun a => strStartsWith a "-") &&
      ¬ archs.all (fun a => strStartsWith a "-") then [archsMixedWarn] else []
  ({ info with test_archs := archs }, d1 ++ d2 ++ d3)

/-- The invalid-item diagnostic of _handle_unique_list for RhtsOptions. -/
def optionsItemErr (key item : String) : Diag :=
  Diag.mk .error ("\"" ++ item ++ "\" is not a valid " ++ key ++ " field (" ++
    listValidatorMessage valid_options ++ " optionally prefixed with " ++
    String.mk [Char.ofNat 39, '-', Char.ofNat 39] ++ ")")

/-- Parser.handle_options via _handle_unique_list: error and return when the
list is already non-empty; otherwise split and append each item that the
DashListValidator accepts, reporting the rejected items individually. -/
def handle_options (key value : String) (info : TestInfo) : TestInfo × List Diag :=
  if info.options ≠ [] then
    (info, [Diag.mk .error (key ++ " field already defined")])
  else
    (pySplit ' ' value).foldl
      (fun acc item =>
        if dashListValid valid_options item then
          ({ acc.1 with options := acc.1.options ++ [item] }, acc.2)
        else
          (acc.1, acc.2 ++ [optionsItemErr key item]))
      (info, [])

/-- value.split(eq, 1): split at the first equals sign, or None without one. -/
def splitOnceEq (s : String) : Option (String × String) :=
  let cs := s.toList
  let pre := cs.takeWhile (fun c => c ≠ '=')
  if pre.length = cs.length then none
  else some (String.mk pre, String.mk (cs.drop (pre.length + 1)))

/-- Python repr of a short identifier-like string (single quotes, no escaping
needed for the keys this code handles). -/
def pyRepr (s : String) : String :=
  String.mk [Char.ofNat 39] ++ s ++ String.mk [Char.ofNat 39]

/-- Parser.handle_environment via _handle_dict with the identifier key
validator: malformed without =, duplicate keys and invalid keys are errors
that skip the store. -/
def handle_environment (key value : String) (info : TestInfo) : TestInfo × List Diag :=
  match splitOnceEq value with
  | none =>
    (info, [Diag.mk .error ("Malformed " ++ key ++ " field not matching KEY=VALUE pattern")])
  | some (k, v) =>
    if (info.environment.map Prod.fst).contains k then
      (info, [Diag.mk .error (key ++ ": Duplicate entry for " ++ pyRepr k)])
    else if ¬ envKeyValid k then
      (info, [Diag.mk .error ("\"" ++ k ++ "\" is not a valid key for " ++ key ++
        " field (Can contain only letters, numbers and underscore.)")])
    else
      ({ info with environment := info.environment ++ [(k, v)] }, [])

/-- Parser.handle_destructive. -/
def handle_destructive (key value : String) (info : TestInfo) : TestInfo × List Diag :=
  let r := bool_field key info.destructive value
  ({ info with destructive := r.1 }, r.2)

/-- Parser.handle_confidential. -/
def handle_confidential (key value : String) (info : TestInfo) : TestInfo × List Diag :=
  let r := bool_field key info.confidential value
  ({ info with confidential := r.1 }, r.2)

/-- The leading digit run matched by the TestTime regex (digits)(rest):
the regex requires at least one digit and the greedy digit group takes the
maximal run. -/
def testTimeDigits (value : String) : List Char :=
  value.toList.takeWhile Char.isDigit

/-- The suffix group of the TestTime regex: everything after the digit run. -/
def testTimeSuffix (value : String) : String :=
  String.mk (value.toList.drop (testTimeDigits value).length)

/-- The sub-minute warning of the TestTime handler. -/
def testTimeLowWarn : Diag :=
  Diag.mk .warning "TestTime should not be less than a minute"

/-- The unrecognized-unit warning of the TestTime handler. -/
def testTimeUnitWarn : Diag :=
  Diag.mk .warning "TestTime unit is not valid, should be m (minutes) or h (hours)"

/-- Parser.handle_testtime: truthiness-based duplicate guard with early
return; parse the leading digit run (hard error without one, nothing stored);
store the digits, scale by the recognized unit suffix, return early on an
unrecognized suffix (warning, value left as the parsed digits), and warn when
the resulting value is below sixty seconds. -/
def handle_testtime (key value : String) (info : TestInfo) : TestInfo × List Diag :=
  if optNatTruthy info.avg_test_time then
    (info, [Diag.mk .error (key ++ " field already defined")])
  else
    let ds := testTimeDigits value
    if ds = [] then
      (info, [Diag.mk .error ("Malformed " ++ key ++ " field")])
    else
      let n := digitsToNat ds
      let suffix := testTimeSuffix value
      if suffix = "" then
        ({ info with avg_test_time := some n },
         if n < 60 then [testTimeLowWarn] else [])
      else if suffix = "m" then
        ({ info with avg_test_time := some (n * 60) },
         if n * 60 < 60 then [testTimeLowWarn] else [])
      else if suffix = "h" then
        ({ info with avg_test_time := some (n * 3600) },
         if n * 3600 < 60 then [testTimeLowWarn] else [])
      else
        ({ info with avg_test_time := some n }, [testTimeUnitWarn])

/-- Parser.handle_type: append every token. -/
def handle_type (_key value : String) (info : TestInfo) : TestInfo × List Diag :=
  ({ info with types := info.types ++ pySplit ' ' value }, [])

/-- Parser.handle_kickstart: last write wins, no checks. -/
def handle_kickstart (_key value : String) (info : TestInfo) : TestInfo × List Diag :=
  ({ info with kickstart := some value }, [])

/-- The full-match test of the Bug token regex [1-9][0-9]* and the integer it
denotes. -/
def bugToken (bug : String) : Option Nat :=
  match bug.toList with
  | [] => none
  | c :: rest =>
    if (49 ≤ c.toNat && c.toNat ≤ 57) &&
        rest.all (fun d => 48 ≤ d.toNat && d.toNat ≤ 57) then
      some (digitsToNat (c :: rest))
    else
      none

/-- The per-token diagnostic of the Bug handler. -/
def bugErrDiag (bug : String) : Diag :=
  Diag.mk .error ("\"" ++ bug ++ "\" is not a valid Bug value (should be numeric)")

/-- One iteration of the Bug loop. -/
def bugStep (acc : TestInfo × List Diag) (bug : String) : TestInfo × List Diag :=
  match bugToken bug with
  | some n => ({ acc.1 with bugs := acc.1.bugs ++ [n] }, acc.2)
  | none => (acc.1, acc.2 ++ [bugErrDiag bug])

/-- Parser.handle_bug (serves both the Bug and the Bugs field names): append
each numeric token, report each non-numeric token individually. -/
def handle_bug (_key value : String) (info : TestInfo) : TestInfo × List Diag :=
  (pySplit ' ' value).foldl bugStep (info, [])

/-- Parser.handle_path: report (without early return) when the slot is
truthy; keep a value below /mnt/tests/ unchanged, report an absolute value
outside it, and prefix /mnt/tests/ onto any value that did not carry it;
the computed path is stored unconditionally. -/
def handle_path (_key value : String) (info : TestInfo) : TestInfo × List Diag :=
  let d1 := if optStrTruthy info.test_path then
      [Diag.mk .error "Path field already defined"]
    else []
  if strStartsWith value "/mnt/tests/" then
    ({ info with test_path := some value }, d1)
  else
    let d2 := if strStartsWith value "/" then
        [Diag.mk .error "Path field is absolute but is not below /mnt/tests"]
      else []
    ({ info with test_path := some ("/mnt/tests/" ++ value) }, d1 ++ d2)

/-- Parser.handle_runfor. -/
def handle_runfor (_key value : String) (info : TestInfo) : TestInfo × List Diag :=
  ({ info with runfor := info.runfor ++ pySplit ' ' value }, [])

/-- Parser.handle_requires. -/
def handle_requires (_key value : String) (info : TestInfo) : TestInfo × List Diag :=
  ({ info with requires := info.requires ++ pySplit ' ' value }, [])

/-- Parser.handle_rhtsrequires. -/
def handle_rhtsrequires (_key value : String) (info : TestInfo) : TestInfo × List Diag :=
  ({ info with rhtsrequires := info.rhtsrequires ++ pySplit ' ' value }, [])

/-- Parser.handle_provides. -/
def handle_provides (_key value : String) (info : TestInfo) : TestInfo × List Diag :=
  ({ info with provides := info.provides ++ pySplit ' ' value }, [])

/-- Character admitted in the property-value group [A-Z:a-z0-9]. -/
def needValChar (c : Char) : Bool :=
  c.isAlphanum || c = ':'

/-- The NeedProperty grammar NAME \s+ (=|>|>=|<|<=) \s+ VALUE with the groups
of the source regex.  The ordered alternation prefers = and falls back from >
to >= (and < to <=) exactly when the next character is =, because the
following \s+ cannot match an equals sign; the scan below is the equivalent
deterministic reading. -/
def needPropMatch (value : String) : Option (String × String × String) :=
  let cs := value.toList
  let name := cs.takeWhile Char.isAlphanum
  let r1 := cs.drop name.length
  let ws1 := r1.takeWhile pyWhitespaceChar
  let r2 := r1.drop ws1.length
  if ws1 = [] then none
  else
    let opr : Option (String × List Char) :=
      match r2 with
      | '=' :: rest => some ("=", rest)
      | '>' :: '=' :: rest => some (">=", rest)
      | '>' :: rest => some (">", rest)
      | '<' :: '=' :: rest => some ("<=", rest)
      | '<' :: rest => some ("<", rest)
      | _ => none
    match opr with
    | none => none
    | some (op, r3) =>
      let ws2 := r3.takeWhile pyWhitespaceChar
      let r4 := r3.drop ws2.length
      if ws2 = [] then none
      else
        let pv := r4.takeWhile needValChar
        if r4.drop pv.length = [] then some (String.mk name, op, String.mk pv)
        else none

/-- Parser.handle_needproperty: on a grammar match append both the raw line
and the parsed triple; otherwise report and append nothing. -/
def handle_needproperty (key value : String) (info : TestInfo) : TestInfo × List Diag :=
  match needPropMatch value with
  | some (n, op, pv) =>
    ({ info with
        needs := info.needs ++ [value],
        need_properties := info.need_properties ++ [(n, op, pv)] }, [])
  | none =>
    (info, [Diag.mk .error ("\"" ++ value ++ "\" is not a valid " ++ key ++
      " field; must be of the form PROPERTYNAME \x7b=|>|>=|<|<=\x7d PROPERTYVALUE")])

/-- Parser.__handle_siteconfig: an argument beginning with a slash is taken
verbatim; a relative argument is joined onto the test name when that is
truthy, and reported as a missing-context error (appending nothing) when it
is not. -/
def handle_siteconfig (arg value : String) (info : TestInfo) : TestInfo × List Diag :=
  if strStartsWith arg "/" then
    ({ info with siteconfig := info.siteconfig ++ [(arg, value)] }, [])
  else
    if optStrTruthy info.test_name then
      ({ info with siteconfig := info.siteconfig ++
          [((info.test_name.getD "") ++ "/" ++ arg, value)] }, [])
    else
      (info, [Diag.mk .error "A relative SiteConfig(): declaration appeared before a Name: field"])

/-- Parser.__handle_declaration: only SiteConfig is recognized; the error
message for any other declaration is the literal (unformatted) string of the
source. -/
def handle_declaration (decl arg value : String) (info : TestInfo) : TestInfo × List Diag :=
  if decl = "SiteConfig" then handle_siteconfig arg value info
  else (info, [Diag.mk .error "\"%s\" is not a valid declaration\""])

/-- The declaration regex: a colon-free group, an opening parenthesis, a
greedy group, a close-parenthesis-colon, and the rest of the line.  The outer
greedy colon-free group settles on the rightmost opening parenthesis that is
left of the first colon and is followed somewhere by a close-parenthesis
directly before a colon; the greedy inner group then reaches the last such
close-parenthesis-colon occurrence.  Returns the three groups. -/
def declMatch (line : String) : Option (String × String × String) :=
  let cs := line.toList
  let rIdxs := (List.range cs.length).filter
    (fun r => cs.getD r ' ' = ')' && cs.getD (r + 1) ' ' = ':')
  let qIdxs := (List.range cs.length).filter
    (fun q => cs.getD q ' ' = '(' && (cs.take q).all (fun c => c ≠ ':') &&
      rIdxs.any (fun r => q + 1 ≤ r))
  match qIdxs.getLast? with
  | none => none
  | some q =>
    match (rIdxs.filter (fun r => q + 1 ≤ r)).getLast? with
    | none => none
    | some r =>
      some (String.mk (cs.take q),
            String.mk ((cs.drop (q + 1)).take (r - (q + 1))),
            String.mk (cs.drop (r + 2)))

/-- The key-value regex: a colon-free group, a colon, the rest.  Matches any
line containing a colon; the key is everything before the first colon (not
trimmed), the value everything after it. -/
def kvMatch (line : String) : Option (String × String) :=
  let cs := line.toList
  let pre := cs.takeWhile (fun c => c ≠ ':')
  if pre.length = cs.length then none
  else some (String.mk pre, String.mk (cs.drop (pre.length + 1)))

/-- The field-name dispatch table of Parser.parse. -/
def dispatch (key value : String) (info : TestInfo) : TestInfo × List Diag :=
  match key with
  | "Name" => handle_name key value info
  | "Description" => handle_desc key value info
  | "Notify" => handle_deprecated key value info
  | "Owner" => handle_owner key value info
  | "TestVersion" => handle_testversion key value info
  | "License" => handle_license key value info
  | "Releases" => handle_releases key value info
  | "Architectures" => handle_archs key value info
  | "RhtsOptions" => handle_options key value info
  | "Environment" => handle_environment key value info
  | "Priority" => handle_priority key value info
  | "Destructive" => handle_destructive key value info
  | "Confidential" => handle_confidential key value info
  | "TestTime" => handle_testtime key value info
  | "Type" => handle_type key value info
  | "Bug" => handle_bug key value info
  | "Bugs" => handle_bug key value info
  | "Path" => handle_path key value info
  | "RunFor" => handle_runfor key value info
  | "Requires" => handle_requires key value info
  | "RhtsRequires" => handle_rhtsrequires key value info
  | "NeedProperty" => handle_needproperty key value info
  | "Need" => handle_deprecated_for_needproperty key value info
  | "Want" => handle_deprecated_for_needproperty key value info
  | "WantProperty" => handle_deprecated_for_needproperty key value info
  | "Kickstart" => handle_kickstart key value info
  | "Provides" => handle_provides key value info
  | _ => (info, [])

/-- One iteration of the line loop of Parser.parse: skip raw lines beginning
with a hash, strip the line, skip blank lines, try the declaration grammar
(stripping argument and value), then the key-value grammar (stripping the
value, silently ignoring unrecognized keys), and report a malformed line
otherwise. -/
def processLine (info : TestInfo) (line : String) : TestInfo × List Diag :=
  if strStartsWith line "#" then (info, [])
  else
    let line := pyStrip line
    if line = "" then (info, [])
    else
      match declMatch line with
      | some (decl, arg, value) => handle_declaration decl (pyStrip arg) (pyStrip value) info
      | none =>
        match kvMatch line with
        | none => (info, [Diag.mk .error "Malformed \"Key: value\" line"])
        | some (key, value) => dispatch key (pyStrip value) info

/-- The mandatory-field postcheck at the end of Parser.parse, in source
order; each check tests Python truthiness of the slot. -/
def mandatoryDiags (info : TestInfo) : List Diag :=
  (if optStrTruthy info.test_name then [] else [Diag.mk .error "Name field not defined"]) ++
  (if optStrTruthy info.test_description then [] else [Diag.mk .error "Description field not defined"]) ++
  (if optStrTruthy info.test_path then [] else [Diag.mk .error "Path field not defined"]) ++
  (if optNatTruthy info.avg_test_time then [] else [Diag.mk .error "TestTime field not defined"]) ++
  (if optStrTruthy info.testversion then [] else [Diag.mk .error "TestVersion field not defined"]) ++
  (if optStrTruthy info.license then [] else [Diag.mk .error "License field not defined"]) ++
  (if optStrTruthy info.owner then [] else [Diag.mk .error "Owner field not defined"])

/-- Parser.parse as a collecting run: fold the line loop over the input and
append the mandatory-field diagnostics, returning the final record and every
diagnostic in execution order. -/
def runParse (lines : List String) : TestInfo × List Diag :=
  let r := lines.foldl
    (fun (acc : TestInfo × List Diag) line =>
      let s := processLine acc.1 line
      (s.1, acc.2 ++ s.2))
    (emptyTestInfo, [])
  (r.1, r.2 ++ mandatoryDiags r.1)

/-- Outcome of a StrictParser run: the record, or the distinct ParserError /
ParserWarning exception kinds with their message. -/
inductive StrictOutcome where
  | ok (info : TestInfo)
  | parserError (msg : String)
  | parserWarning (msg : String)
deriving DecidableEq, Repr

/-- StrictParser(raise_errors).parse over a list of lines: a raising run
executes identically to the collecting run up to the first diagnostic and
raises it with the exception kind of its severity, so its outcome is the head
of the collected diagnostics; a non-raising run discards every diagnostic and
returns the record of the completed run. -/
def parseLines (lines : List String) (raise_errors : Bool) : StrictOutcome :=
  let r := runParse lines
  if raise_errors then
    match r.2 with
    | [] => .ok r.1
    | d :: _ =>
      match d.sev with
      | .error => .parserError d.msg
      | .warning => .parserWarning d.msg
  else .ok r.1

/-- parse_string: split on newlines and run a StrictParser. -/
def parse_string (s : String) (raise_errors : Bool) : StrictOutcome :=
  parseLines (pySplit '\n' s) raise_errors

/-- The loop body of TestInfo.generate_siteconfig_lines: when the test name
is truthy and the entry path starts with it, drop the first len(test_name)+1
characters before emission. -/
def siteconfigStep (info : TestInfo) (result : String) (p : String × String) : String :=
  let arg := if optStrTruthy info.test_name then
      (if strStartsWith p.1 (info.test_name.getD "") then
        strDrop p.1 ((info.test_name.getD "").length + 1)
      else p.1)
    else p.1
  result ++ "SiteConfig(" ++ arg ++ "): " ++ p.2 ++ "\n"

/-- TestInfo.generate_siteconfig_lines: one SiteConfig line per entry, in
order. -/
def generate_siteconfig_lines (info : TestInfo) : String :=
  info.siteconfig.foldl (siteconfigStep info) ""

/-- The line emitted for one site-config entry once the test name is known to
be truthy, written out per entry for comparison with the serializer: the
stripping condition is that the path starts with the test name (the amended
reading of the specification sentence, which claimed the condition was the
test name followed by a slash). -/
def siteconfigLine (info : TestInfo) (p : String × String) : String :=
  "SiteConfig(" ++
    (if strStartsWith p.1 (info.test_name.getD "") then
      strDrop p.1 ((info.test_name.getD "").length + 1)
    else p.1) ++ "): " ++ p.2 ++ "\n"

/-- The per-entry emission of the serializer as the amended claim states it:
one line per entry, in order. -/
def siteconfigLinesSpec (info : TestInfo) : List (String × String) → String
  | [] => ""
  | p :: rest => siteconfigLine info p ++ siteconfigLinesSpec info rest

/-- Appending the empty string on the right is the identity. -/
theorem str_append_empty (s : String) : s ++ "" = s := by
  cases s with
  | mk l => show String.mk (l ++ []) = String.mk l; rw [List.append_nil]

/-- Transitivity of the startswith test. -/
theorem strStartsWith_trans (v p q : String) (h1 : strStartsWith q p = true)
    (h2 : strStartsWith v q = true) : strStartsWith v p = true := by
  simp only [strStartsWith, List.isPrefixOf_iff_prefix] at h1 h2 ⊢
  exact h1.trans h2

/-- The Bug loop appends the integer of every full-match token in order and
reports every other token in order. -/
theorem bugStep_foldl (toks : List String) (info : TestInfo) (ds : List Diag) :
    toks.foldl bugStep (info, ds) =
      ({ info with bugs := info.bugs ++ toks.filterMap bugToken },
       ds ++ (toks.filter (fun t => (bugToken t).isNone)).map bugErrDiag) := by
  induction toks generalizing info ds with
  | nil => simp
  | cons t ts ih =>
    cases h : bugToken t with
    | none => simp [bugStep, h, ih, List.filter_cons, List.filterMap_cons]
    | some n => simp [bugStep, h, ih, List.filter_cons, List.filterMap_cons]

/-- The serializer loop emits the per-entry lines in order after any
accumulator. -/
theorem siteconfig_foldl (info : TestInfo) (h : optStrTruthy info.test_name = true)
    (entries : List (String × String)) (acc : String) :
    entries.foldl (siteconfigStep info) acc = acc ++ siteconfigLinesSpec info entries := by
  induction entries generalizing acc with
  | nil => simp [siteconfigLinesSpec, str_append_empty]
  | cons p rest ih =>
    rw [List.foldl_cons, ih]
    simp [siteconfigStep, siteconfigLine, siteconfigLinesSpec, h, String.append_assoc]

/-- C1 (counterexample): under the non-raising policy a second Name line
reports the duplicate but its value replaces the earlier one — the parse of
["Name: /a", "Name: /b"] completes and leaves test_name = "/b", not the
untouched earlier value "/a" that the claim requires. -/
theorem duplicate_field_untouched_counterexample :
    parseLines ["Name: /a", "Name: /b"] false =
      .ok ((runParse ["Name: /a", "Name: /b"]).1)
  ∧ ((runParse ["Name: /a", "Name: /b"]).1).test_name = some "/b"
  ∧ (some "/b" : Option String) ≠ some "/a" := by
  refine ⟨by decide, by decide, by decide⟩

/-- C1 (amended): a second occurrence of a unique field always reports the
duplicate error against that occurrence; under the non-raising policy the
fields routed through the general uniqueness handler (and Path, Releases,
Architectures, and the boolean fields) then store the later value anyway,
replacing the earlier one, while the unique-list handler (RhtsOptions) and
the TestTime handler return early and leave the earlier value untouched. -/
theorem duplicate_field_second_occurrence (fieldName k v : String)
    (slot : Option String) (bslot : Option Bool) (vald : Option FieldValidator)
    (info : TestInfo) :
    (optStrTruthy slot = true →
      (unique_field_str fieldName slot v vald).1 = some v ∧
      (unique_field_str fieldName slot v vald).2.head? =
        some (Diag.mk .error (fieldName ++ " field already defined")))
  ∧ (optBoolTruthy bslot = true →
      (bool_field fieldName bslot v).1 = boolConvert v ∧
      Diag.mk .error (fieldName ++ " field already defined") ∈
        (bool_field fieldName bslot v).2)
  ∧ (optStrTruthy info.test_path = true →
      (handle_path k v info).1.test_path =
        some (if strStartsWith v "/mnt/tests/" then v else "/mnt/tests/" ++ v) ∧
      (handle_path k v info).2.head? = some (Diag.mk .error "Path field already defined"))
  ∧ (info.releases ≠ [] →
      (handle_releases k v info).1.releases = pySplit ' ' v ∧
      Diag.mk .error (k ++ " field already defined") ∈ (handle_releases k v info).2)
  ∧ (info.test_archs ≠ [] →
      (handle_archs k v info).1.test_archs = pySplit ' ' v ∧
      Diag.mk .error (k ++ " field already defined") ∈ (handle_archs k v info).2)
  ∧ (info.options ≠ [] →
      handle_options k v info = (info, [Diag.mk .error (k ++ " field already defined")]))
  ∧ (optNatTruthy info.avg_test_time = true →
      handle_testtime k v info = (info, [Diag.mk .error (k ++ " field already defined")])) := by
  refine ⟨?_, ?_, ?_, ?_, ?_, ?_, ?_⟩
  · intro h
    simp [unique_field_str, h]
  · intro h
    simp [bool_field, h]
  · intro h
    cases hb : strStartsWith v "/mnt/tests/" <;> simp [handle_path, h, hb]
  · intro h
    simp [handle_releases, h]
  · intro h
    simp [handle_archs, h]
  · intro h
    simp [handle_options, h]
  · intro h
    simp [handle_testtime, h]

/-- C1 (witness for the amended claim) at concrete slots already holding a
value. -/
theorem duplicate_field_second_occurrence_witness :
    optStrTruthy (some "/a") = true
  ∧ (unique_field_str "Name" (some "/a") "/b" none).1 = some "/b"
  ∧ (unique_field_str "Name" (some "/a") "/b" none).2.head? =
      some (Diag.mk .error ("Name" ++ " field already defined"))
  ∧ ({ emptyTestInfo with options := ["Compatible"] } : TestInfo).options ≠ []
  ∧ handle_options "RhtsOptions" "-Compatible" { emptyTestInfo with options := ["Compatible"] } =
      ({ emptyTestInfo with options := ["Compatible"] },
       [Diag.mk .error ("RhtsOptions" ++ " field already defined")])
  ∧ optNatTruthy (some 5 : Option Nat) = true
  ∧ handle_testtime "TestTime" "10" { emptyTestInfo with avg_test_time := some 5 } =
      ({ emptyTestInfo with avg_test_time := some 5 },
       [Diag.mk .error ("TestTime" ++ " field already defined")]) := by
  refine ⟨by decide, ?_, ?_, by decide, ?_, by decide, ?_⟩
  · exact (duplicate_field_second_occurrence "Name" "k" "/b" (some "/a") none none
      emptyTestInfo).1 (by decide) |>.1
  · exact (duplicate_field_second_occurrence "Name" "k" "/b" (some "/a") none none
      emptyTestInfo).1 (by decide) |>.2
  · exact (duplicate_field_second_occurrence "f" "RhtsOptions" "-Compatible" none none none
      { emptyTestInfo with options := ["Compatible"] }).2.2.2.2.2.1 (by decide)
  · exact (duplicate_field_second_occurrence "f" "TestTime" "10" none none none
      { emptyTestInfo with avg_test_time := some 5 }).2.2.2.2.2.2 (by decide)

/-- C2: for the validated unique scalar fields (Owner, TestVersion,
Priority), a first occurrence whose value the validator rejects is stored
into the slot and only then reported; under the collecting (non-raising)
reading the slot holds the rejected value after the handler returns. -/
theorem store_then_validate (info : TestInfo) (k v : String) :
    (optStrTruthy info.owner = false → nameAddrValid v = false →
      handle_owner k v info =
        ({ info with owner := some v },
         [Diag.mk .error ("\"" ++ v ++ "\" is not a valid " ++ k ++ " field (" ++
           nameAddrValidator.message ++ ")")]))
  ∧ (optStrTruthy info.testversion = false → testversionValid v = false →
      handle_testversion k v info =
        ({ info with testversion := some v },
         [Diag.mk .error ("\"" ++ v ++ "\" is not a valid " ++ k ++ " field (" ++
           testversionValidator.message ++ ")")]))
  ∧ (optStrTruthy info.priority = false → valid_priorities.contains v = false →
      handle_priority k v info =
        ({ info with priority := some v },
         [Diag.mk .error ("\"" ++ v ++ "\" is not a valid " ++ k ++ " field (" ++
           priorityValidator.message ++ ")")])) := by
  refine ⟨?_, ?_, ?_⟩
  · intro h1 h2
    simp [handle_owner, unique_field_str, nameAddrValidator, h1, h2]
  · intro h1 h2
    simp [handle_testversion, unique_field_str, testversionValidator, h1, h2]
  · intro h1 h2
    have h2m : ¬ v ∈ valid_priorities := by simpa using h2
    simp [handle_priority, unique_field_str, priorityValidator, h1, h2m]

/-- C2 (witness): rejected values are stored; the slot still holds them. -/
theorem store_then_validate_witness :
    optStrTruthy emptyTestInfo.owner = false
  ∧ nameAddrValid "foo" = false
  ∧ handle_owner "Owner" "foo" emptyTestInfo =
      ({ emptyTestInfo with owner := some "foo" },
       [Diag.mk .error ("\"" ++ "foo" ++ "\" is not a valid " ++ "Owner" ++ " field (" ++
         nameAddrValidator.message ++ ")")])
  ∧ testversionValid "1_0" = false
  ∧ (handle_testversion "TestVersion" "1_0" emptyTestInfo).1.testversion = some "1_0"
  ∧ valid_priorities.contains "Urgent" = false
  ∧ (handle_priority "Priority" "Urgent" emptyTestInfo).1.priority = some "Urgent" := by
  refine ⟨by decide, by decide, ?_, by decide, ?_, by decide, ?_⟩
  · exact (store_then_validate emptyTestInfo "Owner" "foo").1 (by decide) (by decide)
  · rw [(store_then_validate emptyTestInfo "TestVersion" "1_0").2.1 (by decide) (by decide)]
  · rw [(store_then_validate emptyTestInfo "Priority" "Urgent").2.2 (by decide) (by decide)]

/-- C3: a first TestTime value with a leading digit run stores the digits as
seconds (empty suffix), scaled by 60 for suffix m and 3600 for suffix h,
warning when the resulting value is below sixty seconds; any other suffix
leaves the parsed digits stored and warns about the unit; a value with no
leading digits is a hard error and stores nothing. -/
theorem testtime_parsing (info : TestInfo) (k v : String)
    (h : optNatTruthy info.avg_test_time = false) :
    (testTimeDigits v ≠ [] → testTimeSuffix v = "" →
      handle_testtime k v info =
        ({ info with avg_test_time := some (digitsToNat (testTimeDigits v)) },
         if digitsToNat (testTimeDigits v) < 60 then [testTimeLowWarn] else []))
  ∧ (testTimeDigits v ≠ [] → testTimeSuffix v = "m" →
      handle_testtime k v info =
        ({ info with avg_test_time := some (digitsToNat (testTimeDigits v) * 60) },
         if digitsToNat (testTimeDigits v) * 60 < 60 then [testTimeLowWarn] else []))
  ∧ (testTimeDigits v ≠ [] → testTimeSuffix v = "h" →
      handle_testtime k v info =
        ({ info with avg_test_time := some (digitsToNat (testTimeDigits v) * 3600) },
         if digitsToNat (testTimeDigits v) * 3600 < 60 then [testTimeLowWarn] else []))
  ∧ (testTimeDigits v ≠ [] → testTimeSuffix v ≠ "" → testTimeSuffix v ≠ "m" →
      testTimeSuffix v ≠ "h" →
      handle_testtime k v info =
        ({ info with avg_test_time := some (digitsToNat (testTimeDigits v)) },
         [testTimeUnitWarn]))
  ∧ (testTimeDigits v = [] →
      handle_testtime k v info = (info, [Diag.mk .error ("Malformed " ++ k ++ " field")])) := by
  refine ⟨?_, ?_, ?_, ?_, ?_⟩
  · intro hds hsuf
    simp [handle_testtime, h, hds, hsuf]
  · intro hds hsuf
    simp [handle_testtime, h, hds, hsuf]
  · intro hds hsuf
    simp [handle_testtime, h, hds, hsuf]
  · intro hds h1 h2 h3
    simp [handle_testtime, h, hds, h1, h2, h3]
  · intro hds
    simp [handle_testtime, h, hds]

/-- C3 (witness): 10m stores 600, 2h stores 7200, 5 stores 5 with the
sub-minute warning, and a digitless value is a hard error. -/
theorem testtime_parsing_witness :
    optNatTruthy emptyTestInfo.avg_test_time = false
  ∧ handle_testtime "TestTime" "10m" emptyTestInfo =
      ({ emptyTestInfo with avg_test_time := some (digitsToNat (testTimeDigits "10m") * 60) },
       if digitsToNat (testTimeDigits "10m") * 60 < 60 then [testTimeLowWarn] else [])
  ∧ (handle_testtime "TestTime" "10m" emptyTestInfo).1.avg_test_time = some 600
  ∧ (handle_testtime "TestTime" "2h" emptyTestInfo).1.avg_test_time = some 7200
  ∧ handle_testtime "TestTime" "5" emptyTestInfo =
      ({ emptyTestInfo with avg_test_time := some 5 }, [testTimeLowWarn])
  ∧ handle_testtime "TestTime" "abc" emptyTestInfo =
      (emptyTestInfo, [Diag.mk .error ("Malformed " ++ "TestTime" ++ " field")]) := by
  refine ⟨by decide, ?_, by decide, by decide, ?_, ?_⟩
  · exact (testtime_parsing emptyTestInfo "TestTime" "10m" (by decide)).2.1
      (by decide) (by decide)
  · have h5 := (testtime_parsing emptyTestInfo "TestTime" "5" (by decide)).1
      (by decide) (by decide)
    rw [h5]
    decide
  · exact (testtime_parsing emptyTestInfo "TestTime" "abc" (by decide)).2.2.2.2 (by decide)

/-- C4: a first Path value that is not absolute is stored with the
/mnt/tests/ root prefixed; a value already below /mnt/tests/ is stored
unchanged; an absolute value outside the root is reported as an error. -/
theorem path_normalization (info : TestInfo) (k v : String)
    (h : optStrTruthy info.test_path = false) :
    (strStartsWith v "/" = false →
      handle_path k v info = ({ info with test_path := some ("/mnt/tests/" ++ v) }, []))
  ∧ (strStartsWith v "/mnt/tests/" = true →
      handle_path k v info = ({ info with test_path := some v }, []))
  ∧ (strStartsWith v "/" = true → strStartsWith v "/mnt/tests/" = false →
      handle_path k v info =
        ({ info with test_path := some ("/mnt/tests/" ++ v) },
         [Diag.mk .error "Path field is absolute but is not below /mnt/tests"])) := by
  refine ⟨?_, ?_, ?_⟩
  · intro h1
    have h2 : strStartsWith v "/mnt/tests/" = false := by
      cases h3 : strStartsWith v "/mnt/tests/" with
      | false => rfl
      | true =>
        have h4 := strStartsWith_trans v "/" "/mnt/tests/" (by decide) h3
        rw [h4] at h1
        exact h1
    simp [handle_path, h, h1, h2]
  · intro h1
    simp [handle_path, h, h1]
  · intro h1 h2
    simp [handle_path, h, h1, h2]

/-- C4 (witness): the relative and the rooted example of the specification,
and an absolute path outside the root. -/
theorem path_normalization_witness :
    optStrTruthy emptyTestInfo.test_path = false
  ∧ strStartsWith "CoreOS/cups/foo" "/" = false
  ∧ handle_path "Path" "CoreOS/cups/foo" emptyTestInfo =
      ({ emptyTestInfo with test_path := some ("/mnt/tests/" ++ "CoreOS/cups/foo") }, [])
  ∧ (handle_path "Path" "CoreOS/cups/foo" emptyTestInfo).1.test_path =
      some "/mnt/tests/CoreOS/cups/foo"
  ∧ handle_path "Path" "/mnt/tests/CoreOS/cups/foo" emptyTestInfo =
      ({ emptyTestInfo with test_path := some "/mnt/tests/CoreOS/cups/foo" }, [])
  ∧ (handle_path "Path" "/foo" emptyTestInfo).2 =
      [Diag.mk .error "Path field is absolute but is not below /mnt/tests"] := by
  refine ⟨by decide, by decide, ?_, by decide, ?_, ?_⟩
  · exact (path_normalization emptyTestInfo "Path" "CoreOS/cups/foo" (by decide)).1 (by decide)
  · exact (path_normalization emptyTestInfo "Path" "/mnt/tests/CoreOS/cups/foo" (by decide)).2.1
      (by decide)
  · rw [(path_normalization emptyTestInfo "Path" "/foo" (by decide)).2.2 (by decide) (by decide)]

/-- C5: a SiteConfig declaration with an absolute argument appends the pair
verbatim; a relative argument is joined onto a truthy test name; a relative
argument with no test name is a missing-context error and appends nothing. -/
theorem siteconfig_declaration (info : TestInfo) (arg value : String) :
    (strStartsWith arg "/" = true →
      handle_siteconfig arg value info =
        ({ info with siteconfig := info.siteconfig ++ [(arg, value)] }, []))
  ∧ (strStartsWith arg "/" = false → optStrTruthy info.test_name = true →
      handle_siteconfig arg value info =
        ({ info with siteconfig := info.siteconfig ++
            [((info.test_name.getD "") ++ "/" ++ arg, value)] }, []))
  ∧ (strStartsWith arg "/" = false → optStrTruthy info.test_name = false →
      handle_siteconfig arg value info =
        (info,
         [Diag.mk .error "A relative SiteConfig(): declaration appeared before a Name: field"])) := by
  refine ⟨?_, ?_, ?_⟩
  · intro h1
    simp [handle_siteconfig, h1]
  · intro h1 h2
    simp [handle_siteconfig, h1, h2]
  · intro h1 h2
    simp [handle_siteconfig, h1, h2]

/-- C5 (witness): the specification example with Name set, and the
missing-context case without it. -/
theorem siteconfig_declaration_witness :
    strStartsWith "server" "/" = false
  ∧ optStrTruthy (some "/desktop/evolution/mail") = true
  ∧ handle_siteconfig "server" "Hostname"
      { emptyTestInfo with test_name := some "/desktop/evolution/mail" } =
      ({ emptyTestInfo with
          test_name := some "/desktop/evolution/mail"
          siteconfig := [("/desktop/evolution/mail/server", "Hostname")] }, [])
  ∧ handle_siteconfig "server" "X" emptyTestInfo =
      (emptyTestInfo,
       [Diag.mk .error "A relative SiteConfig(): declaration appeared before a Name: field"]) := by
  refine ⟨by decide, by decide, ?_, ?_⟩
  · have h := (siteconfig_declaration
      { emptyTestInfo with test_name := some "/desktop/evolution/mail" }
      "server" "Hostname").2.1 (by decide) (by decide)
    rw [h]
    decide
  · exact (siteconfig_declaration emptyTestInfo "server" "X").2.2 (by decide) (by decide)

/-- C6 (counterexample): with test name /foo, the site-config path /foobar
does not begin with the test name followed by a slash, so the claim requires
it to be emitted verbatim; the serializer nevertheless strips five
characters and emits the mangled relative argument ar. -/
theorem siteconfig_prefix_strip_counterexample :
    generate_siteconfig_lines
      { emptyTestInfo with test_name := some "/foo", siteconfig := [("/foobar", "X")] } =
      "SiteConfig(ar): X\n"
  ∧ ("SiteConfig(ar): X\n" : String) ≠ "SiteConfig(/foobar): X\n" := by
  refine ⟨by decide, by decide⟩

/-- C6 (amended): with a truthy test name the serializer emits one
SiteConfig line per entry in order, stripping the first len(test_name)+1
characters of the path whenever the path begins with the test name itself
(not necessarily followed by a slash) and emitting the path verbatim
otherwise. -/
theorem siteconfig_serialization_amended (info : TestInfo)
    (h : optStrTruthy info.test_name = true) :
    generate_siteconfig_lines info = siteconfigLinesSpec info info.siteconfig := by
  have h2 := siteconfig_foldl info h info.siteconfig ""
  simpa [generate_siteconfig_lines, str_append_empty] using h2

/-- C6 (witness for the amended claim): a nested path below the test name is
emitted relative, a path outside it verbatim. -/
theorem siteconfig_serialization_amended_witness :
    optStrTruthy (some "/foo/bar") = true
  ∧ generate_siteconfig_lines
      { emptyTestInfo with
          test_name := some "/foo/bar"
          siteconfig := [("/foo/bar/baz/fubar", "Dummy value"), ("/stable-servers/ldap", "L")] } =
      siteconfigLinesSpec
        { emptyTestInfo with
            test_name := some "/foo/bar"
            siteconfig := [("/foo/bar/baz/fubar", "Dummy value"), ("/stable-servers/ldap", "L")] }
        [("/foo/bar/baz/fubar", "Dummy value"), ("/stable-servers/ldap", "L")]
  ∧ siteconfigLinesSpec
      { emptyTestInfo with
          test_name := some "/foo/bar"
          siteconfig := [("/foo/bar/baz/fubar", "Dummy value"), ("/stable-servers/ldap", "L")] }
      [("/foo/bar/baz/fubar", "Dummy value"), ("/stable-servers/ldap", "L")] =
      "SiteConfig(baz/fubar): Dummy value\nSiteConfig(/stable-servers/ldap): L\n" := by
  refine ⟨by decide, ?_, by decide⟩
  · exact siteconfig_serialization_amended
      { emptyTestInfo with
          test_name := some "/foo/bar"
          siteconfig := [("/foo/bar/baz/fubar", "Dummy value"), ("/stable-servers/ldap", "L")] }
      (by decide)

/-- C7 (counterexample): the Bug handler splits its value on single spaces,
not on general whitespace.  On the line Bug: 1 TAB 2 the claim, tokenizing
by whitespace, requires the two numeric tokens to be appended with no error;
the program forms the single token 1-TAB-2, which fails the numeric pattern,
so it reports one error and appends nothing.  On a double space the program
reports an error for the empty token, which whitespace tokenization never
produces, while still appending both numbers. -/
theorem bug_whitespace_counterexample :
    (runParse ["Bug: 1\t2"]).1.bugs = []
  ∧ (runParse ["Bug: 1\t2"]).2.head? = some (bugErrDiag "1\t2")
  ∧ ([] : List Nat) ≠ [1, 2]
  ∧ (runParse ["Bugs: 123456  456123"]).1.bugs = [123456, 456123]
  ∧ (runParse ["Bugs: 123456  456123"]).2.head? = some (bugErrDiag "") := by
  refine ⟨by decide, by decide, by decide, by decide, by decide⟩

/-- C7 (amended): Bug and Bugs lines are dispatched to the same handler,
which splits the value on single spaces (not general whitespace) and appends
the integer of every token fully matching the positive-number pattern, in
line order and left-to-right token order; every other token — including the
empty tokens produced by consecutive spaces and any token containing other
whitespace — is reported as an individual error and dropped, without
affecting the other tokens of the same line; the Bug/Bugs examples of the
specification evaluate as stated. -/
theorem bug_lines_accumulate (k v : String) (info : TestInfo) :
    handle_bug k v info =
      ({ info with bugs := info.bugs ++ (pySplit ' ' v).filterMap bugToken },
       ((pySplit ' ' v).filter (fun t => (bugToken t).isNone)).map bugErrDiag)
  ∧ dispatch "Bug" v info = handle_bug "Bug" v info
  ∧ dispatch "Bugs" v info = handle_bug "Bugs" v info
  ∧ (runParse ["Bug: 123456"]).1.bugs = [123456]
  ∧ (runParse ["Bugs: 123456 456123", "Bug: 987654"]).1.bugs = [123456, 456123, 987654]
  ∧ (runParse ["Bug: 123456 bogus 789"]).1.bugs = [123456, 789]
  ∧ bugErrDiag "bogus" ∈ (runParse ["Bug: 123456 bogus 789"]).2 := by
  refine ⟨?_, rfl, rfl, by decide, by decide, by decide, by decide⟩
  · have h := bugStep_foldl (pySplit ' ' v) info []
    simpa [handle_bug] using h

/-- C8 (counterexample): the convert of the boolean validator is a prefix
test, so the string yellow, outside the lexicon, converts to true instead of
invalid; moreover on an invalid value the handler still delegates to the
uniqueness handler and stores the invalid conversion (None), as the
Destructive slot previously holding true shows. -/
theorem bool_lexicon_counterexample :
    boolConvert "yellow" = some true
  ∧ (some true : Option Bool) ≠ none
  ∧ (bool_field "Destructive" (some true) "maybe").1 = none := by
  refine ⟨by decide, by decide, by decide⟩

/-- C8 (amended): convert maps the exact lexicon strings as claimed, but in
general returns true for any string beginning with y or 1, false for any
other string beginning with n or 0, and invalid otherwise; the handler
validates first and reports on failure, but unconditionally converts and
delegates to the uniqueness handler, so an invalid value stores None. -/
theorem bool_validator_amended (fieldName v : String) (slot : Option Bool) :
    (boolConvert "y" = some true ∧ boolConvert "yes" = some true ∧
     boolConvert "1" = some true ∧ boolConvert "n" = some false ∧
     boolConvert "no" = some false ∧ boolConvert "0" = some false)
  ∧ (boolConvert v = some true ↔
      (strStartsWith v "y" = true ∨ strStartsWith v "1" = true))
  ∧ (boolConvert v = some false ↔
      (strStartsWith v "y" = false ∧ strStartsWith v "1" = false ∧
       (strStartsWith v "n" = true ∨ strStartsWith v "0" = true)))
  ∧ (boolIsValid v = false →
      bool_field fieldName slot v =
        (none,
         [Diag.mk .error ("\"" ++ v ++ "\" is not a valid " ++ fieldName ++
           " field (boolean value expected)")] ++
         (if optBoolTruthy slot then
           [Diag.mk .error (fieldName ++ " field already defined")] else [])))
  ∧ (boolIsValid v = true →
      bool_field fieldName slot v =
        (boolConvert v,
         if optBoolTruthy slot then
           [Diag.mk .error (fieldName ++ " field already defined")] else [])) := by
  have hyes : strStartsWith v "yes" = true → strStartsWith v "y" = true :=
    fun h => strStartsWith_trans v "y" "yes" (by decide) h
  have hno : strStartsWith v "no" = true → strStartsWith v "n" = true :=
    fun h => strStartsWith_trans v "n" "no" (by decide) h
  refine ⟨by decide, ?_, ?_, ?_, ?_⟩
  · cases hy : strStartsWith v "y" <;> cases h1 : strStartsWith v "1" <;>
      cases hys : strStartsWith v "yes" <;> simp_all [boolConvert]
  · cases hy : strStartsWith v "y" <;> cases h1 : strStartsWith v "1" <;>
      cases hys : strStartsWith v "yes" <;> cases hn : strStartsWith v "n" <;>
      cases h0 : strStartsWith v "0" <;> cases hns : strStartsWith v "no" <;>
      simp_all [boolConvert]
  · intro h
    have hc : boolConvert v = none := by
      cases hc : boolConvert v <;> simp_all [boolIsValid]
    simp [bool_field, h, hc]
  · intro h
    simp [bool_field, h]

/-- C8 (witness for the amended claim): an invalid value stores None over a
previously true slot, and a valid value stores its conversion. -/
theorem bool_validator_amended_witness :
    boolIsValid "maybe" = false
  ∧ bool_field "Destructive" (some true) "maybe" =
      (none,
       [Diag.mk .error ("\"" ++ "maybe" ++ "\" is not a valid " ++ "Destructive" ++
         " field (boolean value expected)")] ++
       (if optBoolTruthy (some true) then
         [Diag.mk .error ("Destructive" ++ " field already defined")] else []))
  ∧ boolIsValid "yes" = true
  ∧ bool_field "Destructive" none "yes" =
      (boolConvert "yes",
       if optBoolTruthy (none : Option Bool) then
         [Diag.mk .error ("Destructive" ++ " field already defined")] else [])
  ∧ (bool_field "Destructive" none "yes").1 = some true := by
  refine ⟨by decide, ?_, by decide, ?_, by decide⟩
  · exact (bool_validator_amended "Destructive" "maybe" (some true)).2.2.2.1 (by decide)
  · exact (bool_validator_amended "Destructive" "yes" none).2.2.2.2 (by decide)

/-- C9: under the raising strict policy the outcome of a parse is the first
collected diagnostic, raised as the error-kind failure when it is an error
and as the distinct, separately catchable warning-kind failure when it is a
warning; with no diagnostic the record is returned; under the non-raising
strict policy every diagnostic is discarded and the record of the completed
collecting run is returned. -/
theorem strict_policy_outcomes (lines : List String) :
    (∀ m ds, (runParse lines).2 = Diag.mk .error m :: ds →
      parseLines lines true = .parserError m)
  ∧ (∀ m ds, (runParse lines).2 = Diag.mk .warning m :: ds →
      parseLines lines true = .parserWarning m)
  ∧ ((runParse lines).2 = [] → parseLines lines true = .ok (runParse lines).1)
  ∧ parseLines lines false = .ok (runParse lines).1
  ∧ (∀ m m2, StrictOutcome.parserError m ≠ StrictOutcome.parserWarning m2) := by
  refine ⟨?_, ?_, ?_, ?_, ?_⟩
  · intro m ds h
    simp [parseLines, h]
  · intro m ds h
    simp [parseLines, h]
  · intro h
    simp [parseLines, h]
  · simp [parseLines]
  · intro m m2
    simp

/-- C9 (witness): a deprecation warning raises the warning kind, a
deprecated-field error raises the error kind, and the non-raising run
returns the record. -/
theorem strict_policy_outcomes_witness :
    parseLines ["Notify: everyone"] true = .parserWarning "Notify field is deprecated"
  ∧ parseLines ["Need: x"] true =
      .parserError "Need field is deprecated.  Use NeedProperty instead"
  ∧ parseLines ["Bug: 123456"] false = .ok ((runParse ["Bug: 123456"]).1) := by
  refine ⟨?_, ?_, ?_⟩
  · exact (strict_policy_outcomes ["Notify: everyone"]).2.1 "Notify field is deprecated"
      [Diag.mk .error "Name field not defined",
       Diag.mk .error "Description field not defined",
       Diag.mk .error "Path field not defined",
       Diag.mk .error "TestTime field not defined",
       Diag.mk .error "TestVersion field not defined",
       Diag.mk .error "License field not defined",
       Diag.mk .error "Owner field not defined"] (by decide)
  · exact (strict_policy_outcomes ["Need: x"]).1
      "Need field is deprecated.  Use NeedProperty instead"
      [Diag.mk .error "Name field not defined",
       Diag.mk .error "Description field not defined",
       Diag.mk .error "Path field not defined",
       Diag.mk .error "TestTime field not defined",
       Diag.mk .error "TestVersion field not defined",
       Diag.mk .error "License field not defined",
       Diag.mk .error "Owner field not defined"] (by decide)
  · exact (strict_policy_outcomes ["Bug: 123456"]).2.2.2.1

/-- C10: a TestTime value of 0 is parsed and stored, but the stored 0 is
falsy, so a later TestTime line passes the truthiness duplicate guard and
replaces it, and the end-of-scan mandatory check, which also tests
truthiness, reports TestTime as not defined when no later line replaced
it. -/
theorem testtime_zero_truthiness (info : TestInfo) (k v : String) :
    ((runParse ["TestTime: 0"]).1.avg_test_time = some 0)
  ∧ (info.avg_test_time = some 0 → testTimeDigits v ≠ [] → testTimeSuffix v = "" →
      handle_testtime k v info =
        ({ info with avg_test_time := some (digitsToNat (testTimeDigits v)) },
         if digitsToNat (testTimeDigits v) < 60 then [testTimeLowWarn] else []))
  ∧ (info.avg_test_time = some 0 →
      Diag.mk .error "TestTime field not defined" ∈ mandatoryDiags info)
  ∧ (Diag.mk .error "TestTime field not defined" ∈ (runParse ["TestTime: 0"]).2)
  ∧ ((runParse ["TestTime: 0", "TestTime: 300"]).1.avg_test_time = some 300)
  ∧ (Diag.mk .error "TestTime field already defined" ∉
      (runParse ["TestTime: 0", "TestTime: 300"]).2) := by
  refine ⟨by decide, ?_, ?_, by decide, by decide, by decide⟩
  · intro h0 hds hsuf
    have h : optNatTruthy info.avg_test_time = false := by simp [h0, optNatTruthy]
    simp [handle_testtime, h, hds, hsuf]
  · intro h0
    simp [mandatoryDiags, h0, optNatTruthy]

/-- C10 (witness): with the slot holding 0, a second TestTime line of 300
replaces it without a duplicate error, and the mandatory check lists
TestTime as not defined. -/
theorem testtime_zero_truthiness_witness :
    ({ emptyTestInfo with avg_test_time := some 0 } : TestInfo).avg_test_time = some 0
  ∧ testTimeDigits "300" ≠ []
  ∧ testTimeSuffix "300" = ""
  ∧ handle_testtime "TestTime" "300" { emptyTestInfo with avg_test_time := some 0 } =
      ({ emptyTestInfo with avg_test_time := some (digitsToNat (testTimeDigits "300")) },
       if digitsToNat (testTimeDigits "300") < 60 then [testTimeLowWarn] else [])
  ∧ (handle_testtime "TestTime" "300" { emptyTestInfo with avg_test_time := some 0 }).1.avg_test_time =
      some 300
  ∧ Diag.mk .error "TestTime field not defined" ∈
      mandatoryDiags { emptyTestInfo with avg_test_time := some 0 } := by
  refine ⟨by decide, by decide, by decide, ?_, by decide, ?_⟩
  · exact (testtime_zero_truthiness { emptyTestInfo with avg_test_time := some 0 }
      "TestTime" "300").2.1 (by decide) (by decide) (by decide)
  · exact (testtime_zero_truthiness { emptyTestInfo with avg_test_time := some 0 }
      "TestTime" "300").2.2.1 (by decide)

end Rhts
